import Mathlib

/-!
Verification development for the YouTube Shorts AI pipeline.

Shallow embedding of the media post-processing and orchestration layer:
* `adjust_music_duration`, `adjust_music_volume`, `create_music_for_voiceover`
  from `src/music_generation/music_generator.py` (pydub audio segments are
  modelled as lists of per-millisecond frame values in a dB-like scale;
  Python floats are modelled as rationals, `int(...)` as truncation toward
  zero; the pydub `audio[:k]` slice follows Python slice semantics; pydub's
  `fade_out` raises on a non-positive window — `InvalidDuration` for a
  negative duration, `TypeError` at zero via `end - start` with
  `start = None` — and `apply_gain` saturates fixed-width samples at full
  scale, so the operations return `Except` and the gain clamps; there is no
  target validation anywhere in the source).
* the poll-until-done loop shared by `src/music_generation/suno_client.py`
  and `src/video_generation/runway_client.py`.
* the stage sequencing of `create_short` in
  `src/pipeline_integration/pipeline.py` (stage adapters are external
  remote services and are abstracted to success/failure; the orchestrator
  itself fixes stage order, output paths, and the no-retry/no-cleanup
  policy, all of which are transcribed here).
* the audio-track handling of `add_audio_to_video` from
  `src/video_generation/video_generator.py` (moviepy clips are modelled by
  their duration in seconds).
-/

set_option maxRecDepth 16000

/-- Python `int(x)` on a float: truncation toward zero, modelled on `ℚ`. -/
def pyInt (q : ℚ) : ℤ := if 0 ≤ q then ⌊q⌋ else -⌊-q⌋

/-- Model of a pydub `AudioSegment`: one frame value per millisecond.
Frame values live in a dB-like additive scale, so that pydub's
`audio + gain_db` is addition on every frame. -/
structure AudioSeg where
  frames : List ℚ
deriving DecidableEq, Repr

/-- `len(audio)` in pydub: length in milliseconds. -/
def AudioSeg.lenMs (a : AudioSeg) : ℕ := a.frames.length

/-- pydub `audio * n`: concatenation of `n` copies. -/
def AudioSeg.repeatSeg (a : AudioSeg) (n : ℕ) : AudioSeg :=
  ⟨(List.replicate n a.frames).flatten⟩

/-- pydub `audio[:k]` (head slice, Python slice semantics: a negative stop
counts from the end, clamped at zero). -/
def AudioSeg.takeMs (a : AudioSeg) (k : ℤ) : AudioSeg :=
  if 0 ≤ k then ⟨a.frames.take k.toNat⟩
  else ⟨a.frames.take (a.frames.length - (-k).toNat)⟩

/-- pydub `audio + gain_db` (`apply_gain`, implemented with `audioop.mul`):
a gain shift applied to every frame, saturating at full scale — raw
fixed-width samples are clamped at their bounds on overflow, which in this
per-frame dBFS-like model is a clamp at 0. Attenuation never clips. -/
def AudioSeg.applyGain (a : AudioSeg) (gain_db : ℚ) : AudioSeg :=
  ⟨a.frames.map (fun v => min 0 (v + gain_db))⟩

/-- The exceptions pydub's `fade` raises before touching any audio: a
negative `duration` raises `InvalidDuration`, and a zero `duration` is
falsy, so `fade` falls into `duration = end - start` with `start = None`
and raises `TypeError`. -/
inductive PydubFadeError where
  | typeError
  | invalidDuration
deriving DecidableEq, Repr

/-- The gain ramp a successful `fade_out(n)` (with `n > 0`) applies: the
last `n` milliseconds are attenuated by a ramp toward silence (−120 dB at
the final frame); frames before the fade window are unchanged. -/
def AudioSeg.fadeRamp (a : AudioSeg) (n : ℕ) : AudioSeg :=
  ⟨a.frames.mapIdx (fun i v =>
    if a.frames.length ≤ i + n then
      v - 120 * (((i + n + 1 - a.frames.length : ℕ) : ℚ) / (n : ℚ))
    else v)⟩

/-- pydub `audio.fade_out(d)`, i.e. `fade(to_gain=-120, end=inf,
duration=d)`: `d < 0` raises `InvalidDuration`; `d = 0` raises `TypeError`
(`end - start` with `start = None`); `d > 0` applies the tail ramp. -/
def AudioSeg.fadeOut (a : AudioSeg) (d : ℤ) : Except PydubFadeError AudioSeg :=
  if d < 0 then .error .invalidDuration
  else if d = 0 then .error .typeError
  else .ok (a.fadeRamp d.toNat)

/-- The file system visible to the music generator: an association list from
paths to decoded audio contents. -/
def FS : Type := List (String × AudioSeg)

instance : DecidableEq FS := by
  unfold FS
  infer_instance

/-- `AudioSegment.from_file path`: decode the file at `path` (`none` models a
missing or undecodable file, where pydub raises). -/
def lookupFS (fs : FS) (p : String) : Option AudioSeg :=
  match fs with
  | [] => none
  | (q, a) :: rest => if q = p then some a else lookupFS rest p

/-- `audio.export(path)`: write (or overwrite) the file at `path`. -/
def setFS (fs : FS) (p : String) (a : AudioSeg) : FS :=
  match fs with
  | [] => [(p, a)]
  | (q, b) :: rest => if q = p then (q, a) :: rest else (q, b) :: setFS rest p a

/-- The failure modes of the music-generator operations: the decode error
pydub raises in `AudioSegment.from_file` on a missing or unreadable file,
and the errors `fade` raises on a non-positive window. There is no
target-validation error (no `InvalidTargetError`) anywhere in the source. -/
inductive MusicError where
  | decodeError
  | fadeError (e : PydubFadeError)
deriving DecidableEq, Repr

/-- `MusicGenerator.adjust_music_duration` (music_generator.py lines 63-105).
When `output_path?` is `none` the input path is used (the source overwrites
the input file in place). Returns the path written (the input path, on the
tolerance no-op) together with the resulting file system; errors model the
exceptions the source lets escape: decode failure, and pydub's `fade_out`
raising on a non-positive fade window. -/
def adjust_music_duration (fs : FS) (music_path : String) (target_duration : ℚ)
    (output_path? : Option String) : Except MusicError (String × FS) :=
  let output_path := output_path?.getD music_path
  match lookupFS fs music_path with
  | none => .error .decodeError
  | some audio =>
    let current_duration : ℚ := (audio.lenMs : ℚ) / 1000
    if |current_duration - target_duration| < 1 then
      .ok (music_path, fs)
    else
      let adjusted_audio :=
        if current_duration < target_duration then
          let repeat_count : ℤ := pyInt (target_duration / current_duration) + 1
          (audio.repeatSeg repeat_count.toNat).takeMs (pyInt (target_duration * 1000))
        else
          audio.takeMs (pyInt (target_duration * 1000))
      let fade_duration : ℤ := min 3000 (pyInt (target_duration * 1000 * (1 / 10)))
      match adjusted_audio.fadeOut fade_duration with
      | .error e => .error (.fadeError e)
      | .ok faded_audio => .ok (output_path, setFS fs output_path faded_audio)

/-- `MusicGenerator.adjust_music_volume` (music_generator.py lines 107-131):
load, apply the gain shift, write back (in place when `output_path?` is
`none`). -/
def adjust_music_volume (fs : FS) (music_path : String) (volume_adjustment_db : ℚ)
    (output_path? : Option String) : Except MusicError (String × FS) :=
  let output_path := output_path?.getD music_path
  match lookupFS fs music_path with
  | none => .error .decodeError
  | some audio =>
    .ok (output_path, setFS fs output_path (audio.applyGain volume_adjustment_db))

/-- The fields of the result dictionary of `create_music_for_voiceover`
relevant to duration reconciliation (music_generator.py lines 51-61 and
170-175). -/
structure MusicResult where
  output_path : String
  requested_duration : ℚ
  actual_duration : ℚ
  voiceover_duration : ℚ
  volume_adjustment : ℚ
deriving DecidableEq, Repr

/-- `MusicGenerator.create_music_for_voiceover` (music_generator.py lines
133-177): measure the voiceover by decoding it, generate music requesting
that duration (`gen` abstracts the remote Suno generation, which writes its
result at `output_path`), adjust the music duration to the measured
voiceover duration (in place), then reduce the volume (in place). -/
def create_music_for_voiceover (gen : ℚ → AudioSeg) (fs : FS)
    (voiceover_path output_path : String) (volume_reduction_db : ℚ) :
    Except MusicError (MusicResult × FS) :=
  match lookupFS fs voiceover_path with
  | none => .error .decodeError
  | some voiceover =>
    let voiceover_duration : ℚ := (voiceover.lenMs : ℚ) / 1000
    let music := gen voiceover_duration
    let fs1 := setFS fs output_path music
    let actual_duration : ℚ := (music.lenMs : ℚ) / 1000
    match adjust_music_duration fs1 output_path voiceover_duration none with
    | .error e => .error e
    | .ok (adjusted_path, fs2) =>
      match adjust_music_volume fs2 adjusted_path volume_reduction_db none with
      | .error e => .error e
      | .ok (final_path, fs3) =>
        .ok ({ output_path := final_path,
                requested_duration := voiceover_duration,
                actual_duration := actual_duration,
                voiceover_duration := voiceover_duration,
                volume_adjustment := volume_reduction_db }, fs3)

/-- Step 3 of `YouTubeShortsCreator.create_short` (pipeline.py lines
121-128): the music stage is invoked with the voiceover path only; the
original `duration` argument of `create_short` does not flow into it. -/
def create_short_music_step (original_target : ℚ) (gen : ℚ → AudioSeg) (fs : FS)
    (voiceover_path output_path : String) : Except MusicError (MusicResult × FS) :=
  let _ := original_target
  create_music_for_voiceover gen fs voiceover_path output_path (-10)

/-! ## Remote job poller

`SunoClient.generate_music` (suno_client.py lines 75-109) and
`RunwayClient.generate_video_from_text` (runway_client.py lines 66-100)
share the same poll loop: up to `max_attempts = 60` status queries, a fixed
`time.sleep(5)` between non-terminal polls, return the downloaded artifact
on `completed`, raise on `failed`, raise `TimeoutError` after the loop. -/

/-- Remote job status as reported by the vendor API. -/
inductive JobStatus where
  | pending
  | running
  | completed
  | failed
deriving DecidableEq, Repr

/-- Terminal outcome of the poll loop. `missingResult` models the
`ValueError` raised when a completed generation has no artifact URL. -/
inductive PollResult (α : Type) where
  | ok (a : α)
  | genFailed
  | missingResult
  | timedOut
deriving DecidableEq, Repr

/-- `max_attempts = 60  # 5 minutes with 5-second intervals` -/
def maxAttempts : ℕ := 60

/-- `time.sleep(5)` between polls: fixed interval, no backoff. -/
def pollIntervalSeconds : ℕ := 5

/-- The `for attempt in range(max_attempts)` loop. `status i` is the status
the remote service reports to the `i`-th poll (0-indexed); `payload` is the
artifact carried by the completed job (`none` = no URL). Returns the
outcome, the number of status polls performed, and the list of sleep
intervals taken. -/
def pollLoop (status : ℕ → JobStatus) (payload : Option α) :
    ℕ → ℕ → List ℕ → PollResult α × ℕ × List ℕ
  | 0, polls, sleeps => (.timedOut, polls, sleeps)
  | fuel + 1, polls, sleeps =>
    match status polls with
    | .completed =>
      match payload with
      | some a => (.ok a, polls + 1, sleeps)
      | none => (.missingResult, polls + 1, sleeps)
    | .failed => (.genFailed, polls + 1, sleeps)
    | _ => pollLoop status payload fuel (polls + 1) (sleeps ++ [pollIntervalSeconds])

/-- The poll phase of `generate_music` / `generate_video_from_text`,
entered after submission returned a generation id. -/
def poll_until_done (status : ℕ → JobStatus) (payload : Option α) :
    PollResult α × ℕ × List ℕ :=
  pollLoop status payload maxAttempts 0 []

/-! ## Pipeline orchestrator

`YouTubeShortsCreator.create_short` (pipeline.py lines 79-195) is a
straight-line sequence of seven stages with no `try`/`except`, no retry and
no deletion; the metadata manifest is written last. Stage adapters wrap
external remote services, so they are abstracted to success or failure; the
orchestrator itself chooses every output path. -/

/-- The seven stages of `create_short`, in source order. -/
inductive Stage where
  | script
  | voiceover
  | music
  | video
  | mux
  | overlay
  | manifest
deriving DecidableEq, Repr

/-- Source order of the stages (pipeline.py steps 1-7). -/
def stageOrder : List Stage :=
  [.script, .voiceover, .music, .video, .mux, .overlay, .manifest]

/-- The output files each stage writes, as chosen by the orchestrator
(pipeline.py lines 106, 115, 127, 136, 143, 151, 185). -/
def stageOutputs (output_dir output_name : String) : Stage → List String
  | .script => [output_dir ++ "/text/" ++ output_name ++ "_script.txt"]
  | .voiceover => [output_dir ++ "/audio/" ++ output_name ++ "_voiceover.mp3"]
  | .music => [output_dir ++ "/music/" ++ output_name ++ "_music.mp3"]
  | .video => [output_dir ++ "/video/" ++ output_name ++ "_video.mp4"]
  | .mux => [output_dir ++ "/video/" ++ output_name ++ "_with_audio.mp4"]
  | .overlay => [output_dir ++ "/final/" ++ output_name ++ ".mp4"]
  | .manifest => [output_dir ++ "/final/" ++ output_name ++ "_metadata.json"]

/-- Run the stages in order. `ok s` tells whether stage `s` succeeds (a
failing stage raises, which ends the run immediately: no later stage runs,
nothing written is deleted, nothing is retried — there is no `try`/`except`
in `create_short`). Returns the stages executed to completion, the files
written (in order), and the stage that aborted the run, if any. -/
def runStages (ok : Stage → Bool) (output_dir output_name : String) :
    List Stage → List Stage → List String → List Stage × List String × Option Stage
  | [], executed, written => (executed, written, none)
  | s :: rest, executed, written =>
    if ok s then
      runStages ok output_dir output_name rest (executed ++ [s])
        (written ++ stageOutputs output_dir output_name s)
    else (executed, written, some s)

/-- `create_short`, at the level of stage sequencing and file writes. -/
def create_short_run (ok : Stage → Bool) (output_dir output_name : String) :
    List Stage × List String × Option Stage :=
  runStages ok output_dir output_name stageOrder [] []

/-! ## Mux stage audio handling

`VideoGenerator.add_audio_to_video` (video_generator.py lines 98-138).
moviepy clips are modelled by their duration in seconds (a Python float,
modelled as `ℚ`). -/

/-- A moviepy clip, modelled by its duration in seconds. -/
structure AVClip where
  duration : ℚ
deriving DecidableEq, Repr

/-- moviepy `clip.subclip(t0, t1)`. -/
def AVClip.subclip (_c : AVClip) (t0 t1 : ℚ) : AVClip := ⟨t1 - t0⟩

/-- moviepy `concatenate_audioclips`. -/
def concatenate_audioclips (clips : List AVClip) : AVClip :=
  ⟨(clips.map AVClip.duration).sum⟩

/-- The audio-track handling inside `add_audio_to_video` (video_generator.py
lines 114-126): trim the audio if it is longer than the video, loop then
trim if it is shorter, leave it alone if equal. The returned clip is the
audio track muxed into the output container. -/
def add_audio_to_video_audio (video_clip audio_clip : AVClip) : AVClip :=
  if audio_clip.duration > video_clip.duration then
    audio_clip.subclip 0 video_clip.duration
  else if video_clip.duration > audio_clip.duration then
    let repeat_count : ℤ := pyInt (video_clip.duration / audio_clip.duration) + 1
    (concatenate_audioclips (List.replicate repeat_count.toNat audio_clip)).subclip
      0 video_clip.duration
  else audio_clip

/-! ## File-system and audio-segment lemmas -/

theorem lookupFS_setFS_self (fs : FS) (p : String) (a : AudioSeg) :
    lookupFS (setFS fs p a) p = some a := by
  induction fs with
  | nil => simp [setFS, lookupFS]
  | cons hd tl ih =>
    obtain ⟨q, b⟩ := hd
    by_cases hq : q = p
    · simp [setFS, lookupFS, hq]
    · simp [setFS, lookupFS, hq, ih]

theorem AudioSeg.lenMs_fadeRamp (a : AudioSeg) (d : ℕ) :
    (a.fadeRamp d).lenMs = a.lenMs := by
  simp [AudioSeg.fadeRamp, AudioSeg.lenMs]

theorem AudioSeg.fadeOut_pos (a : AudioSeg) (d : ℤ) (hd : 0 < d) :
    a.fadeOut d = .ok (a.fadeRamp d.toNat) := by
  unfold AudioSeg.fadeOut
  rw [if_neg (by omega), if_neg (by omega)]

theorem AudioSeg.fadeOut_nonpos (a : AudioSeg) (d : ℤ) (hd : d ≤ 0) :
    a.fadeOut d
      = .error (if d < 0 then .invalidDuration else .typeError) := by
  unfold AudioSeg.fadeOut
  rcases lt_or_eq_of_le hd with hl | he
  · rw [if_pos hl, if_pos hl]
  · subst he
    simp

theorem pyInt_eq_floor (q : ℚ) (hq : 0 ≤ q) : pyInt q = ⌊q⌋ := by
  unfold pyInt
  rw [if_pos hq]

theorem pyInt_nonpos (q : ℚ) (hq : q ≤ 0) : pyInt q ≤ 0 := by
  unfold pyInt
  rcases eq_or_lt_of_le hq with he | hl
  · subst he
    simp
  · rw [if_neg (not_le.mpr hl)]
    have h0 : 0 ≤ ⌊-q⌋ := Int.floor_nonneg.mpr (by linarith)
    omega

theorem AudioSeg.lenMs_repeatSeg (a : AudioSeg) (n : ℕ) :
    (a.repeatSeg n).lenMs = n * a.lenMs := by
  simp [AudioSeg.repeatSeg, AudioSeg.lenMs, List.map_replicate, List.sum_replicate,
    smul_eq_mul]

theorem AudioSeg.lenMs_takeMs (a : AudioSeg) (k : ℤ) (hk : 0 ≤ k) :
    (a.takeMs k).lenMs = min k.toNat a.lenMs := by
  simp [AudioSeg.takeMs, hk, AudioSeg.lenMs]

theorem AudioSeg.applyGain_roundtrip (a : AudioSeg) (x : ℚ)
    (hsafe : ∀ v ∈ a.frames, v ≤ 0 ∧ v + x ≤ 0) :
    (a.applyGain x).applyGain (-x) = a := by
  cases a with
  | mk l =>
    simp only [AudioSeg.applyGain, List.map_map, AudioSeg.mk.injEq]
    have hpt : ∀ v ∈ l, ((fun w => min 0 (w + -x)) ∘ fun v => min 0 (v + x)) v
        = id v := by
      intro v hv
      obtain ⟨h0, hx⟩ := hsafe v hv
      simp only [Function.comp_apply, id_eq]
      rw [min_eq_right hx, show v + x + -x = v from by ring, min_eq_right h0]
    rw [List.map_congr_left hpt, List.map_id]

/-! ## Claims about `adjust_music_duration` and `adjust_music_volume` -/

/-- Claim C2: for every asset with measured duration `c` and every target
`t > 0` with `|c − t| < 1` second, `adjust_music_duration` is a no-op: it
returns the input path with the file system unchanged — no trim, no loop,
no fade, no write. -/
theorem c2_tolerance_identity (fs : FS) (p : String) (a : AudioSeg) (t : ℚ)
    (output_path? : Option String) (h : lookupFS fs p = some a) (ht : 0 < t)
    (htol : |(a.lenMs : ℚ) / 1000 - t| < 1) :
    adjust_music_duration fs p t output_path? = .ok (p, fs) := by
  simp [adjust_music_duration, h, htol]

theorem c2_witness :
    adjust_music_duration [("m.mp3", ⟨List.replicate 1200 0⟩)] "m.mp3" (3 / 2) none
      = .ok ("m.mp3", [("m.mp3", ⟨List.replicate 1200 0⟩)]) :=
  c2_tolerance_identity _ _ ⟨List.replicate 1200 0⟩ _ _ (by rfl) (by norm_num)
    (by norm_num [AudioSeg.lenMs, abs_lt])

/-- Claim C6 counterexample: at a 1.5-second asset and target 0,
`adjust_music_duration` does fail — but not with `InvalidTargetError`
(no such validation exists in the source): the zero fade window makes
pydub's `fade_out(0)` raise `TypeError`; at target −2 the negative window
raises `InvalidDuration`; and inside the tolerance band (0.5-second asset,
target 0) the call does not fail at all and returns the asset unchanged. -/
theorem c6_counterexample :
    adjust_music_duration [("music.mp3", ⟨List.replicate 1500 0⟩)] "music.mp3" 0 none
      = .error (.fadeError .typeError) ∧
    adjust_music_duration [("half.mp3", ⟨List.replicate 500 0⟩)] "half.mp3" 0 none
      = .ok ("half.mp3", [("half.mp3", ⟨List.replicate 500 0⟩)]) ∧
    adjust_music_duration [("music.mp3", ⟨List.replicate 1500 0⟩)] "music.mp3" (-2) none
      = .error (.fadeError .invalidDuration) := by
  refine ⟨?_, ?_, ?_⟩
  · have h1 : lookupFS [("music.mp3", ⟨List.replicate 1500 0⟩)] "music.mp3"
        = some ⟨List.replicate 1500 0⟩ := rfl
    have hntol : ¬(|((⟨List.replicate 1500 0⟩ : AudioSeg).lenMs : ℚ) / 1000 - 0| < 1) := by
      norm_num [AudioSeg.lenMs, abs_lt]
    have hfd : min 3000 (pyInt ((0 : ℚ) * 1000 * (1 / 10))) = 0 := by
      rw [pyInt_eq_floor _ (by norm_num)]
      norm_num
    simp only [adjust_music_duration, h1, Option.getD_none]
    rw [if_neg hntol, hfd, AudioSeg.fadeOut_nonpos _ _ le_rfl]
    norm_num
  · have h1 : lookupFS [("half.mp3", ⟨List.replicate 500 0⟩)] "half.mp3"
        = some ⟨List.replicate 500 0⟩ := rfl
    have htol : |((⟨List.replicate 500 0⟩ : AudioSeg).lenMs : ℚ) / 1000 - 0| < 1 := by
      norm_num [AudioSeg.lenMs, abs_lt]
    simp only [adjust_music_duration, h1, Option.getD_none]
    rw [if_pos htol]
  · have h1 : lookupFS [("music.mp3", ⟨List.replicate 1500 0⟩)] "music.mp3"
        = some ⟨List.replicate 1500 0⟩ := rfl
    have hntol : ¬(|((⟨List.replicate 1500 0⟩ : AudioSeg).lenMs : ℚ) / 1000 - (-2)| < 1) := by
      norm_num [AudioSeg.lenMs, abs_lt]
    have hfd : min 3000 (pyInt ((-2 : ℚ) * 1000 * (1 / 10))) = -200 := by
      unfold pyInt
      norm_num
    simp only [adjust_music_duration, h1, Option.getD_none]
    rw [if_neg hntol, hfd, AudioSeg.fadeOut_nonpos _ _ (by norm_num)]
    norm_num

/-- Claim C6 (amended): `adjust_music_duration` performs no validation of
the target and no `InvalidTargetError` exists in the code. For every
decodable asset and `target_seconds <= 0`: inside the 1-second tolerance
band the asset is returned unchanged (no failure); outside it the call
fails, but incidentally inside pydub's `fade_out` on the non-positive fade
window (`TypeError` at a zero window, `InvalidDuration` at a negative one)
— never with a target-validation error, and no truncated asset is
written. -/
theorem c6_no_validation (fs : FS) (p : String) (a : AudioSeg) (t : ℚ)
    (h : lookupFS fs p = some a) (ht : t ≤ 0) :
    (|(a.lenMs : ℚ) / 1000 - t| < 1 →
      adjust_music_duration fs p t none = .ok (p, fs)) ∧
    (¬(|(a.lenMs : ℚ) / 1000 - t| < 1) →
      ∃ e : PydubFadeError,
        adjust_music_duration fs p t none = .error (.fadeError e)) := by
  constructor
  · intro htol
    simp [adjust_music_duration, h, htol]
  · intro hntol
    have hq : t * 1000 * (1 / 10) ≤ 0 := by nlinarith
    have hd : min 3000 (pyInt (t * 1000 * (1 / 10))) ≤ 0 :=
      le_trans (min_le_right _ _) (pyInt_nonpos _ hq)
    refine ⟨if min 3000 (pyInt (t * 1000 * (1 / 10))) < 0 then .invalidDuration
      else .typeError, ?_⟩
    simp only [adjust_music_duration, h, Option.getD_none]
    rw [if_neg hntol, AudioSeg.fadeOut_nonpos _ _ hd]

theorem c6_witness :
    (|((⟨List.replicate 1500 0⟩ : AudioSeg).lenMs : ℚ) / 1000 - (-2)| < 1 →
      adjust_music_duration [("nv.mp3", ⟨List.replicate 1500 0⟩)] "nv.mp3" (-2) none
        = .ok ("nv.mp3", [("nv.mp3", ⟨List.replicate 1500 0⟩)])) ∧
    (¬(|((⟨List.replicate 1500 0⟩ : AudioSeg).lenMs : ℚ) / 1000 - (-2)| < 1) →
      ∃ e : PydubFadeError,
        adjust_music_duration [("nv.mp3", ⟨List.replicate 1500 0⟩)] "nv.mp3" (-2) none
          = .error (.fadeError e)) :=
  c6_no_validation _ "nv.mp3" ⟨List.replicate 1500 0⟩ (-2) (by rfl) (by norm_num)

/-- Claim C10 counterexample: pydub's gain saturates at full scale, so the
`+x` then `−x` roundtrip does not restore the original loudness once `+x`
clips: a frame at −5 dBFS pushed by +10 dB clips to 0, and −10 dB then
lands at −10 dBFS, not −5 — a loss far beyond codec rounding. -/
theorem c10_counterexample :
    adjust_music_volume [("gain.mp3", ⟨[-5]⟩)] "gain.mp3" 10 none
      = .ok ("gain.mp3", [("gain.mp3", ⟨[0]⟩)]) ∧
    adjust_music_volume [("gain.mp3", ⟨[0]⟩)] "gain.mp3" (-10) none
      = .ok ("gain.mp3", [("gain.mp3", ⟨[-10]⟩)]) ∧
    (⟨[-10]⟩ : AudioSeg) ≠ ⟨[-5]⟩ := by
  refine ⟨?_, ?_, by decide⟩
  · have h1 : lookupFS [("gain.mp3", ⟨[-5]⟩)] "gain.mp3" = some ⟨[-5]⟩ := rfl
    simp only [adjust_music_volume, h1, Option.getD_none]
    norm_num [AudioSeg.applyGain, setFS]
  · have h1 : lookupFS [("gain.mp3", ⟨[0]⟩)] "gain.mp3" = some ⟨[0]⟩ := rfl
    simp only [adjust_music_volume, h1, Option.getD_none]
    norm_num [AudioSeg.applyGain, setFS]

/-- Claim C10 (amended): `adjust_music_volume` is a gain shift with no
normalization, but the underlying `audioop.mul` saturates samples at full
scale. Whenever no frame is driven past full scale by `+x` (in particular
for every attenuation of in-range audio), applying `+x` and then `−x`
restores the file at the music path to its exact original content; a
negative adjustment still strictly attenuates every frame. -/
theorem c10_volume_roundtrip (fs : FS) (p : String) (a : AudioSeg) (x : ℚ)
    (h : lookupFS fs p = some a)
    (hsafe : ∀ v ∈ a.frames, v ≤ 0 ∧ v + x ≤ 0) :
    ∃ fs1, adjust_music_volume fs p x none = .ok (p, fs1) ∧
      lookupFS fs1 p = some (a.applyGain x) ∧
      adjust_music_volume fs1 p (-x) none = .ok (p, setFS fs1 p a) ∧
      lookupFS (setFS fs1 p a) p = some a ∧
      (x < 0 → ∀ v ∈ a.frames, min 0 (v + x) < v) := by
  refine ⟨setFS fs p (a.applyGain x), ?_, ?_, ?_, ?_, ?_⟩
  · simp [adjust_music_volume, h]
  · exact lookupFS_setFS_self fs p (a.applyGain x)
  · simp [adjust_music_volume, lookupFS_setFS_self,
      AudioSeg.applyGain_roundtrip a x hsafe]
  · exact lookupFS_setFS_self _ p a
  · intro hx v _
    calc min 0 (v + x) ≤ v + x := min_le_right _ _
      _ < v := by linarith

theorem c10_witness :
    ∃ fs1, adjust_music_volume [("m.mp3", ⟨[-20, -30]⟩)] "m.mp3" 5 none
        = .ok ("m.mp3", fs1) ∧
      lookupFS fs1 "m.mp3" = some ((⟨[-20, -30]⟩ : AudioSeg).applyGain 5) ∧
      adjust_music_volume fs1 "m.mp3" (-5) none
        = .ok ("m.mp3", setFS fs1 "m.mp3" ⟨[-20, -30]⟩) ∧
      lookupFS (setFS fs1 "m.mp3" ⟨[-20, -30]⟩) "m.mp3" = some ⟨[-20, -30]⟩ ∧
      ((5 : ℚ) < 0 → ∀ v ∈ (⟨[-20, -30]⟩ : AudioSeg).frames, min 0 (v + 5) < v) :=
  c10_volume_roundtrip _ "m.mp3" ⟨[-20, -30]⟩ 5 (by rfl)
    (by
      intro v hv
      simp at hv
      rcases hv with h | h <;> subst h <;> norm_num)

/-! ## Claim C3: the poll loop -/

theorem pollLoop_zero {α : Type} (status : ℕ → JobStatus) (payload : Option α)
    (polls : ℕ) (sleeps : List ℕ) :
    pollLoop status payload 0 polls sleeps = (.timedOut, polls, sleeps) := rfl

theorem pollLoop_succ {α : Type} (status : ℕ → JobStatus) (payload : Option α)
    (fuel polls : ℕ) (sleeps : List ℕ) :
    pollLoop status payload (fuel + 1) polls sleeps
      = match status polls with
        | .completed =>
          match payload with
          | some a => (.ok a, polls + 1, sleeps)
          | none => (.missingResult, polls + 1, sleeps)
        | .failed => (.genFailed, polls + 1, sleeps)
        | _ => pollLoop status payload fuel (polls + 1) (sleeps ++ [pollIntervalSeconds]) :=
  rfl

theorem pollLoop_advance {α : Type} (status : ℕ → JobStatus) (payload : Option α) :
    ∀ (k fuel polls : ℕ) (sleeps : List ℕ),
      (∀ i, i < k → status (polls + i) ≠ .completed ∧ status (polls + i) ≠ .failed) →
      pollLoop status payload (fuel + k) polls sleeps
        = pollLoop status payload fuel (polls + k)
            (sleeps ++ List.replicate k pollIntervalSeconds) := by
  intro k
  induction k with
  | zero => intro fuel polls sleeps _; simp
  | succ k ih =>
    intro fuel polls sleeps h
    have h0 := h 0 (Nat.succ_pos k)
    rw [Nat.add_zero] at h0
    rw [show fuel + (k + 1) = (fuel + k) + 1 from rfl]
    rw [pollLoop_succ]
    cases hs : status polls with
    | completed => exact absurd hs h0.1
    | failed => exact absurd hs h0.2
    | pending =>
      rw [ih fuel (polls + 1) (sleeps ++ [pollIntervalSeconds])
        (fun i hi => by
          have := h (i + 1) (by omega)
          rwa [show polls + (i + 1) = polls + 1 + i by omega] at this)]
      have hp : polls + 1 + k = polls + (k + 1) := by omega
      have hsl : sleeps ++ [pollIntervalSeconds] ++ List.replicate k pollIntervalSeconds
          = sleeps ++ List.replicate (k + 1) pollIntervalSeconds := by
        simp [List.replicate_succ, List.append_assoc]
      rw [hp, hsl]
    | running =>
      rw [ih fuel (polls + 1) (sleeps ++ [pollIntervalSeconds])
        (fun i hi => by
          have := h (i + 1) (by omega)
          rwa [show polls + (i + 1) = polls + 1 + i by omega] at this)]
      have hp : polls + 1 + k = polls + (k + 1) := by omega
      have hsl : sleeps ++ [pollIntervalSeconds] ++ List.replicate k pollIntervalSeconds
          = sleeps ++ List.replicate (k + 1) pollIntervalSeconds := by
        simp [List.replicate_succ, List.append_assoc]
      rw [hp, hsl]

/-- Claim C3: if the remote status sequence is `Pending*` followed by
`Completed` within `max_attempts` (reference value 60; fixed 5-second
interval, no backoff), the poll loop returns the fetched result exactly
once, having performed exactly `k + 1` status polls and no poll after the
completed one; if no terminal status is seen in `max_attempts` polls, the
loop times out having performed exactly `max_attempts` polls, each
separated by the same fixed 5-second sleep. -/
theorem c3_poller {α : Type} :
    (∀ (status : ℕ → JobStatus) (a : α) (k : ℕ),
      k < maxAttempts → (∀ i, i < k → status i = .pending) → status k = .completed →
      poll_until_done status (some a)
        = (.ok a, k + 1, List.replicate k pollIntervalSeconds)) ∧
    (∀ (status : ℕ → JobStatus) (payload : Option α),
      (∀ i, i < maxAttempts → status i ≠ .completed ∧ status i ≠ .failed) →
      poll_until_done status payload
        = (.timedOut, maxAttempts, List.replicate maxAttempts pollIntervalSeconds)) := by
  constructor
  · intro status a k hk hpend hcomp
    unfold poll_until_done
    rw [show maxAttempts = ((maxAttempts - k - 1) + 1) + k by omega]
    rw [pollLoop_advance status (some a) k ((maxAttempts - k - 1) + 1) 0 []
      (fun i hi => by
        rw [Nat.zero_add]
        rw [hpend i hi]
        exact ⟨by simp, by simp⟩)]
    rw [pollLoop_succ]
    rw [Nat.zero_add, hcomp]
    simp
  · intro status payload h
    unfold poll_until_done
    rw [show maxAttempts = 0 + maxAttempts by omega]
    rw [pollLoop_advance status payload maxAttempts 0 0 []
      (fun i hi => by
        rw [Nat.zero_add]
        exact h i (by simpa using hi))]
    simp [pollLoop_zero]

theorem c3_witness :
    poll_until_done (fun i => if i < 3 then JobStatus.pending else .completed) (some 42)
        = (.ok 42, 4, List.replicate 3 pollIntervalSeconds) ∧
    @poll_until_done ℕ (fun _ => JobStatus.running) none
        = (.timedOut, maxAttempts, List.replicate maxAttempts pollIntervalSeconds) := by
  constructor
  · exact c3_poller.1 _ 42 3 (by norm_num [maxAttempts])
      (fun i hi => by simp [hi]) (by norm_num)
  · exact c3_poller.2 _ none (fun i _ => ⟨by simp, by simp⟩)

/-! ## Claim C5: the orchestrator aborts without cleanup or retry -/

theorem runStages_firstFail (ok : Stage → Bool) (out name : String) :
    ∀ (pre : List Stage) (s : Stage) (post executed : List Stage) (written : List String),
      (∀ x ∈ pre, ok x = true) → ok s = false →
      runStages ok out name (pre ++ s :: post) executed written
        = (executed ++ pre, written ++ (pre.map (stageOutputs out name)).flatten, some s) := by
  intro pre
  induction pre with
  | nil =>
    intro s post ex w _ hs
    simp [runStages, hs]
  | cons p rest ih =>
    intro s post ex w hpre hs
    have hp : ok p = true := hpre p (by simp)
    have step : runStages ok out name ((p :: rest) ++ s :: post) ex w
        = runStages ok out name (rest ++ s :: post) (ex ++ [p])
            (w ++ stageOutputs out name p) := by
      simp [runStages, hp]
    rw [step, ih s post (ex ++ [p]) (w ++ stageOutputs out name p)
      (fun x hx => hpre x (by simp [hx])) hs]
    simp [List.append_assoc]

/-- Claim C5: if the first failing stage of a `create_short` run is `s`,
the run aborts at `s`: exactly the stages before `s` executed, exactly
their artifacts were written (in order, none deleted, none retried), no
later stage ran, and the manifest stage — the last stage, whose only
effect is the metadata file — was never reached. -/
theorem c5_abort (ok : Stage → Bool) (out name : String)
    (pre post : List Stage) (s : Stage)
    (horder : stageOrder = pre ++ s :: post)
    (hpre : ∀ x ∈ pre, ok x = true) (hs : ok s = false) :
    create_short_run ok out name
      = (pre, (pre.map (stageOutputs out name)).flatten, some s) ∧
    Stage.manifest ∉ pre := by
  constructor
  · unfold create_short_run
    rw [horder, runStages_firstFail ok out name pre s post [] [] hpre hs]
    simp
  · intro hmem
    have hlen : pre.length ≤ 6 := by
      have h7 := congrArg List.length horder
      simp [stageOrder] at h7
      omega
    have hpre_take : stageOrder.take pre.length = pre := by
      rw [horder]
      exact List.take_left pre (s :: post)
    have hmem2 : Stage.manifest ∈ stageOrder.take pre.length := by
      rw [hpre_take]; exact hmem
    have hforall : ∀ n, n ≤ 6 → Stage.manifest ∉ stageOrder.take n := by decide
    exact hforall pre.length hlen hmem2

theorem c5_witness :
    create_short_run
        (fun s => match s with | .video => false | _ => true) "output" "short1"
      = ([.script, .voiceover, .music],
         ([Stage.script, .voiceover, .music].map (stageOutputs "output" "short1")).flatten,
         some .video) ∧
    Stage.manifest ∉ [Stage.script, Stage.voiceover, Stage.music] :=
  c5_abort _ "output" "short1" [.script, .voiceover, .music]
    [.mux, .overlay, .manifest] .video (by rfl) (by decide) (by rfl)

/-! ## Claim C8: the mux stage's audio handling -/

/-- Claim C8 (amended): the mux stage applies the loop/trim symmetry of the
reconciler but without its 1-second tolerance band and without a fade-out:
for every audio/video pair with positive durations, the muxed audio track
has exactly the video's duration; when the audio is shorter, the
concatenation of `floor(video/audio) + 1` copies is long enough that the
head trim to the video's duration is valid. -/
theorem c8_mux_exact_length (video_clip audio_clip : AVClip)
    (ha : 0 < audio_clip.duration) (hv : 0 < video_clip.duration) :
    (add_audio_to_video_audio video_clip audio_clip).duration = video_clip.duration ∧
    (audio_clip.duration < video_clip.duration →
      video_clip.duration
        ≤ ((concatenate_audioclips
            (List.replicate (pyInt (video_clip.duration / audio_clip.duration) + 1).toNat
              audio_clip)).duration)) := by
  have hconcat : ∀ n : ℕ,
      (concatenate_audioclips (List.replicate n audio_clip)).duration
        = (n : ℚ) * audio_clip.duration := by
    intro n
    simp [concatenate_audioclips, List.map_replicate, List.sum_replicate, smul_eq_mul]
  by_cases h1 : audio_clip.duration > video_clip.duration
  · constructor
    · simp [add_audio_to_video_audio, h1, AVClip.subclip]
    · intro h2
      exact absurd h1 (not_lt.mpr (le_of_lt h2))
  · by_cases h2 : video_clip.duration > audio_clip.duration
    · constructor
      · simp [add_audio_to_video_audio, h1, h2, AVClip.subclip]
      · intro _
        rw [hconcat]
        have hdiv : 0 < video_clip.duration / audio_clip.duration := div_pos hv ha
        have hfloor : pyInt (video_clip.duration / audio_clip.duration)
            = ⌊video_clip.duration / audio_clip.duration⌋ := by
          simp [pyInt, le_of_lt hdiv]
        have hfl_nonneg : 0 ≤ ⌊video_clip.duration / audio_clip.duration⌋ :=
          Int.floor_nonneg.mpr (le_of_lt hdiv)
        have hcast : (((pyInt (video_clip.duration / audio_clip.duration) + 1).toNat : ℤ) : ℚ)
            = ((⌊video_clip.duration / audio_clip.duration⌋ : ℚ) + 1) := by
          rw [hfloor, Int.toNat_of_nonneg (by omega)]
          push_cast
          ring
        have hlt : video_clip.duration / audio_clip.duration
            < (⌊video_clip.duration / audio_clip.duration⌋ : ℚ) + 1 :=
          Int.lt_floor_add_one _
        have := (div_lt_iff₀ ha).mp hlt
        calc video_clip.duration
            ≤ ((⌊video_clip.duration / audio_clip.duration⌋ : ℚ) + 1)
              * audio_clip.duration := le_of_lt this
          _ = (((pyInt (video_clip.duration / audio_clip.duration) + 1).toNat : ℤ) : ℚ)
              * audio_clip.duration := by rw [hcast]
          _ = _ := by push_cast; ring
    · have heq : audio_clip.duration = video_clip.duration :=
        le_antisymm (not_lt.mp h1) (not_lt.mp h2)
      constructor
      · simp [add_audio_to_video_audio, h1, h2, heq]
      · intro h3
        rw [heq] at h3
        exact absurd h3 (lt_irrefl _)

theorem c8_witness :
    (add_audio_to_video_audio ⟨10⟩ ⟨3⟩).duration = (10 : ℚ) ∧
    ((3 : ℚ) < 10 →
      (10 : ℚ) ≤ (concatenate_audioclips
        (List.replicate (pyInt ((10 : ℚ) / 3) + 1).toNat ⟨3⟩)).duration) :=
  c8_mux_exact_length ⟨10⟩ ⟨3⟩ (by norm_num) (by norm_num)

/-- Claim C8 counterexample: at a 1.5-second audio track and a 1-second
video, the mux stage trims the audio to exactly 1 second, while the
reconciler (`adjust_music_duration` with the video duration as target) is
inside its 1-second tolerance band and returns the 1.5-second asset
unchanged — so the mux's audio handling is not the reconciler's
duration-matching algorithm specialized to audio. -/
theorem c8_counterexample :
    (add_audio_to_video_audio ⟨1⟩ ⟨3 / 2⟩).duration = 1 ∧
    adjust_music_duration [("bgm.mp3", ⟨List.replicate 1500 0⟩)] "bgm.mp3" 1 none
      = .ok ("bgm.mp3", [("bgm.mp3", ⟨List.replicate 1500 0⟩)]) ∧
    ((3 : ℚ) / 2 ≠ 1) := by
  refine ⟨?_, ?_, by norm_num⟩
  · norm_num [add_audio_to_video_audio, AVClip.subclip]
  · have h1 : lookupFS [("bgm.mp3", ⟨List.replicate 1500 0⟩)] "bgm.mp3"
        = some ⟨List.replicate 1500 0⟩ := rfl
    simp only [adjust_music_duration, h1]
    norm_num [AudioSeg.lenMs, abs_lt]


/-! ## Claims C1 and C7: loop-and-trim duration and the fade-out window -/

/-- Claim C1: for a source asset with positive measured duration `c` and a
target `t` with `t − c ≥ 1`, `adjust_music_duration` takes the loop path:
it concatenates `floor(t / c) + 1` copies of the source, keeps the first
`t` seconds (`⌊t·1000⌋` milliseconds) of the concatenation, fades the tail
(the window is positive here, so `fade_out` succeeds), and the result's
measured duration is `⌊t·1000⌋` ms — equal to `t` within one millisecond,
regardless of the computed repeat count. -/
theorem c1_loop_trim_duration (fs : FS) (p : String) (a : AudioSeg) (t : ℚ)
    (h : lookupFS fs p = some a) (hc : 0 < a.lenMs)
    (ht : (a.lenMs : ℚ) / 1000 + 1 ≤ t) :
    ∃ res : AudioSeg,
      adjust_music_duration fs p t none = .ok (p, setFS fs p res) ∧
      lookupFS (setFS fs p res) p = some res ∧
      ((a.repeatSeg ((⌊t / ((a.lenMs : ℚ) / 1000)⌋ + 1).toNat)).takeMs
          ⌊t * 1000⌋).fadeOut (min 3000 (pyInt (t * 1000 * (1 / 10)))) = .ok res ∧
      (res.lenMs : ℤ) = ⌊t * 1000⌋ ∧
      |(res.lenMs : ℚ) / 1000 - t| < 1 / 1000 := by
  have hnQ : (0 : ℚ) < (a.lenMs : ℚ) := by exact_mod_cast hc
  have hcpos : (0 : ℚ) < (a.lenMs : ℚ) / 1000 := by positivity
  have htpos : (0 : ℚ) < t := by linarith
  have h_tc : (a.lenMs : ℚ) / 1000 < t := by linarith
  have h_ntol : ¬(|(a.lenMs : ℚ) / 1000 - t| < 1) := by
    rw [abs_sub_comm, abs_of_nonneg (by linarith)]
    intro hlt
    linarith
  have hdivpos : (0 : ℚ) ≤ t / ((a.lenMs : ℚ) / 1000) := le_of_lt (div_pos htpos hcpos)
  have hR : pyInt (t / ((a.lenMs : ℚ) / 1000)) = ⌊t / ((a.lenMs : ℚ) / 1000)⌋ :=
    pyInt_eq_floor _ hdivpos
  have hkpos : (0 : ℚ) ≤ t * 1000 := by positivity
  have hk : pyInt (t * 1000) = ⌊t * 1000⌋ := pyInt_eq_floor _ hkpos
  have hkfl_nonneg : 0 ≤ ⌊t * 1000⌋ := Int.floor_nonneg.mpr hkpos
  have hRfl_nonneg : 0 ≤ ⌊t / ((a.lenMs : ℚ) / 1000)⌋ := Int.floor_nonneg.mpr hdivpos
  have hwin : 0 < min 3000 (pyInt (t * 1000 * (1 / 10))) := by
    rw [pyInt_eq_floor _ (by positivity)]
    have h100 : (1 : ℤ) ≤ ⌊t * 1000 * (1 / 10)⌋ := by
      apply Int.le_floor.mpr
      push_cast
      nlinarith
    exact lt_min (by norm_num) (by omega)
  have hmain : ⌊t * 1000⌋.toNat ≤ (⌊t / ((a.lenMs : ℚ) / 1000)⌋ + 1).toNat * a.lenMs := by
    have h1 : (⌊t * 1000⌋ : ℚ) ≤ t * 1000 := Int.floor_le _
    have h2 : t / ((a.lenMs : ℚ) / 1000) < (⌊t / ((a.lenMs : ℚ) / 1000)⌋ : ℚ) + 1 :=
      Int.lt_floor_add_one _
    have h3 : t < ((⌊t / ((a.lenMs : ℚ) / 1000)⌋ : ℚ) + 1) * ((a.lenMs : ℚ) / 1000) :=
      (div_lt_iff₀ hcpos).mp h2
    have hRcast : (((⌊t / ((a.lenMs : ℚ) / 1000)⌋ + 1).toNat : ℕ) : ℤ)
        = ⌊t / ((a.lenMs : ℚ) / 1000)⌋ + 1 := Int.toNat_of_nonneg (by omega)
    have h5 : ⌊t * 1000⌋
        ≤ (((⌊t / ((a.lenMs : ℚ) / 1000)⌋ + 1).toNat * a.lenMs : ℕ) : ℤ) := by
      have h4 : (⌊t * 1000⌋ : ℚ)
          < ((((⌊t / ((a.lenMs : ℚ) / 1000)⌋ + 1).toNat * a.lenMs : ℕ) : ℤ) : ℚ) := by
        push_cast [hRcast]
        nlinarith
      exact_mod_cast le_of_lt h4
    omega
  refine ⟨(((a.repeatSeg ((pyInt (t / ((a.lenMs : ℚ) / 1000)) + 1).toNat)).takeMs
      (pyInt (t * 1000))).fadeRamp (min 3000 (pyInt (t * 1000 * (1 / 10)))).toNat),
      ?_, lookupFS_setFS_self _ _ _, ?_, ?_, ?_⟩
  · simp only [adjust_music_duration, h, Option.getD_none]
    rw [if_neg h_ntol, if_pos h_tc, AudioSeg.fadeOut_pos _ _ hwin]
  · rw [hR, hk]
    exact AudioSeg.fadeOut_pos _ _ hwin
  · rw [AudioSeg.lenMs_fadeRamp, AudioSeg.lenMs_takeMs _ _ (by rw [hk]; exact hkfl_nonneg),
      AudioSeg.lenMs_repeatSeg, hk, hR]
    have hmin := Nat.min_eq_left hmain
    omega
  · have hlen : ((((a.repeatSeg ((pyInt (t / ((a.lenMs : ℚ) / 1000)) + 1).toNat)).takeMs
        (pyInt (t * 1000))).fadeRamp
          (min 3000 (pyInt (t * 1000 * (1 / 10)))).toNat).lenMs : ℚ)
        = (⌊t * 1000⌋ : ℚ) := by
      rw [AudioSeg.lenMs_fadeRamp, AudioSeg.lenMs_takeMs _ _ (by rw [hk]; exact hkfl_nonneg),
        AudioSeg.lenMs_repeatSeg, hk, hR]
      rw [Nat.min_eq_left hmain]
      exact_mod_cast congrArg (fun z : ℤ => (z : ℚ)) (Int.toNat_of_nonneg hkfl_nonneg)
    rw [hlen]
    have hfl1 : (⌊t * 1000⌋ : ℚ) ≤ t * 1000 := Int.floor_le _
    have hfl2 : t * 1000 < (⌊t * 1000⌋ : ℚ) + 1 := Int.lt_floor_add_one _
    rw [abs_lt]
    constructor <;> linarith

theorem c1_witness :
    ∃ res : AudioSeg,
      adjust_music_duration [("loop.mp3", ⟨List.replicate 12000 0⟩)] "loop.mp3"
          (137 / 5) none
        = .ok ("loop.mp3", setFS [("loop.mp3", ⟨List.replicate 12000 0⟩)] "loop.mp3" res) ∧
      lookupFS (setFS [("loop.mp3", ⟨List.replicate 12000 0⟩)] "loop.mp3" res) "loop.mp3"
        = some res ∧
      (((⟨List.replicate 12000 0⟩ : AudioSeg).repeatSeg
          ((⌊(137 / 5 : ℚ) / (((⟨List.replicate 12000 0⟩ : AudioSeg).lenMs : ℚ) / 1000)⌋
            + 1).toNat)).takeMs ⌊(137 / 5 : ℚ) * 1000⌋).fadeOut
          (min 3000 (pyInt ((137 / 5 : ℚ) * 1000 * (1 / 10)))) = .ok res ∧
      (res.lenMs : ℤ) = ⌊(137 / 5 : ℚ) * 1000⌋ ∧
      |(res.lenMs : ℚ) / 1000 - 137 / 5| < 1 / 1000 :=
  c1_loop_trim_duration _ "loop.mp3" ⟨List.replicate 12000 0⟩ (137 / 5) (by rfl)
    (by norm_num [AudioSeg.lenMs]) (by norm_num [AudioSeg.lenMs])

theorem create_music_for_voiceover_eq (gen : ℚ → AudioSeg) (fs : FS)
    (vp op : String) (r : ℚ) (v : AudioSeg) (h : lookupFS fs vp = some v) :
    create_music_for_voiceover gen fs vp op r
      = (adjust_music_duration (setFS fs op (gen ((v.lenMs : ℚ) / 1000))) op
          ((v.lenMs : ℚ) / 1000) none).bind (fun pr =>
          (adjust_music_volume pr.2 pr.1 r none).map (fun qr =>
            (MusicResult.mk qr.1 ((v.lenMs : ℚ) / 1000)
              (((gen ((v.lenMs : ℚ) / 1000)).lenMs : ℚ) / 1000)
              ((v.lenMs : ℚ) / 1000) r, qr.2))) := by
  simp only [create_music_for_voiceover, h]
  cases hadj : adjust_music_duration (setFS fs op (gen ((v.lenMs : ℚ) / 1000))) op
      ((v.lenMs : ℚ) / 1000) none with
  | error e => simp [Except.bind]
  | ok pr =>
    obtain ⟨ap, fs2⟩ := pr
    cases hvol : adjust_music_volume fs2 ap r none with
    | error e => simp [hvol, Except.bind, Except.map]
    | ok qr =>
      obtain ⟨fp, fs3⟩ := qr
      simp [hvol, Except.bind, Except.map]

/-- Claim C4: in the music stage, the duration-matching target handed to
`adjust_music_duration` is the voiceover's duration as measured by decoding
the voiceover file (`lenMs / 1000`), recorded unchanged in the result's
`requested_duration` and `voiceover_duration`; the originally requested
target duration of `create_short` does not flow into the music stage at
all, so the stage's result is independent of it. -/
theorem c4_reconciler_target (gen : ℚ → AudioSeg) (fs : FS) (vp op : String)
    (r : ℚ) (v : AudioSeg) (h : lookupFS fs vp = some v) :
    (create_music_for_voiceover gen fs vp op r
      = (adjust_music_duration (setFS fs op (gen ((v.lenMs : ℚ) / 1000))) op
          ((v.lenMs : ℚ) / 1000) none).bind (fun pr =>
          (adjust_music_volume pr.2 pr.1 r none).map (fun qr =>
            (MusicResult.mk qr.1 ((v.lenMs : ℚ) / 1000)
              (((gen ((v.lenMs : ℚ) / 1000)).lenMs : ℚ) / 1000)
              ((v.lenMs : ℚ) / 1000) r, qr.2)))) ∧
    (∀ d d' : ℚ, create_short_music_step d gen fs vp op
        = create_short_music_step d' gen fs vp op) :=
  ⟨create_music_for_voiceover_eq gen fs vp op r v h, fun _ _ => rfl⟩

theorem c4_witness :
    (create_music_for_voiceover (fun _ => ⟨List.replicate 20000 0⟩)
        [("vo.mp3", ⟨List.replicate 27400 0⟩)] "vo.mp3" "bgm2.mp3" (-10)
      = (adjust_music_duration
          (setFS [("vo.mp3", ⟨List.replicate 27400 0⟩)] "bgm2.mp3"
            ((fun _ => (⟨List.replicate 20000 0⟩ : AudioSeg))
              (((⟨List.replicate 27400 0⟩ : AudioSeg).lenMs : ℚ) / 1000)))
          "bgm2.mp3" (((⟨List.replicate 27400 0⟩ : AudioSeg).lenMs : ℚ) / 1000)
          none).bind (fun pr =>
          (adjust_music_volume pr.2 pr.1 (-10) none).map (fun qr =>
            (MusicResult.mk qr.1
              (((⟨List.replicate 27400 0⟩ : AudioSeg).lenMs : ℚ) / 1000)
              ((((fun _ => (⟨List.replicate 20000 0⟩ : AudioSeg))
                  (((⟨List.replicate 27400 0⟩ : AudioSeg).lenMs : ℚ)
                    / 1000)).lenMs : ℚ) / 1000)
              (((⟨List.replicate 27400 0⟩ : AudioSeg).lenMs : ℚ) / 1000)
              (-10), qr.2)))) ∧
    (∀ d d' : ℚ,
      create_short_music_step d (fun _ => ⟨List.replicate 20000 0⟩)
          [("vo.mp3", ⟨List.replicate 27400 0⟩)] "vo.mp3" "bgm2.mp3"
        = create_short_music_step d' (fun _ => ⟨List.replicate 20000 0⟩)
            [("vo.mp3", ⟨List.replicate 27400 0⟩)] "vo.mp3" "bgm2.mp3") :=
  c4_reconciler_target (fun _ => ⟨List.replicate 20000 0⟩) _ "vo.mp3" "bgm2.mp3"
    (-10) ⟨List.replicate 27400 0⟩ (by rfl)

